import Mathlib

/-!
# Verification of the HTTPProxy request orchestrator

A shallow embedding of the request-orchestration core found in
pkg/object/httpproxy/httpproxy.go: the three-phase pipeline
(preHandle, handle, postHandle) with cancellation short-circuiting,
backend selection, fallback management, construction wiring and teardown.

Collaborator stages (validator, rate limiter, circuit breaker, adaptor,
mirror backend, candidate backend, backend, compression, fallback responder)
are external plugins specified only by their capability contracts; they are
embedded as opaque functions over the per-request context data.  The
orchestrator is instrumented with a ghost event trace so that invocation
counts and ordering are provable: stages themselves operate on the context
data only and cannot touch the trace.
-/

namespace HTTPProxyProof

/-- Errors returned by collaborator stages.  `base n` is an arbitrary stage
error; `validateFailed e` embeds the wrapping performed by the orchestrator
on validation failure (fmt.Errorf with prefix "validate failed"). -/
inductive GoErr : Type
  | base (n : Nat)
  | validateFailed (e : GoErr)
deriving DecidableEq, Repr

/-- The fallbackPlugin tags of the source: which stage triggered (or
completed) a fallback consultation. -/
inductive FallbackPlugin : Type
  | rateLimiter
  | circuitBreaker
  | backend
  | candidateBackend
deriving DecidableEq, Repr

/-- Ghost events recorded by the orchestrator at each collaborator call
site.  They are instrumentation only: no stage behaviour depends on them. -/
inductive Event : Type
  | validate
  | limit
  | adaptRequest
  | adaptResponse
  | mirror
  | protect
  | handlerRun (pt : FallbackPlugin)
  | setStatus (n : Nat)
  | fallbackCall (pt : FallbackPlugin) (err : Option GoErr)
  | onFinishRegister
deriving DecidableEq, Repr

/-- Modelled from the spec: the per-request HTTP context data the transport
layer supplies (the context package is outside the orchestrator source).
It exposes mutable response state (a status code), a one-way cancellation
flag with a reason, and opaque pass-through data (headers, body) that
stages may read and write. -/
structure CtxData : Type where
  status : Nat
  cancelled : Bool
  cancelErr : Option GoErr
  payload : Nat
deriving DecidableEq, Repr

/-- The full per-request context: the data visible to stages, the ghost
event trace, and the number of registered on-finish completion hooks
(each registered hook updates the rate counter once on completion). -/
structure Ctx : Type where
  data : CtxData
  events : List Event
  finishHooks : Nat
deriving DecidableEq, Repr

/-- Modelled from the spec: ctx.Cancel sets the cancellation flag with a
reason; the flag is settable once, so cancelling an already-cancelled
request is a no-op. -/
def cancel (e : GoErr) (ctx : Ctx) : Ctx :=
  if ctx.data.cancelled then ctx
  else { ctx with data := { ctx.data with cancelled := true, cancelErr := some e } }

/-- ctx.Response().SetStatusCode: sets the response status code
(instrumented with a ghost setStatus event). -/
def setStatus (n : Nat) (ctx : Ctx) : Ctx :=
  { ctx with data := { ctx.data with status := n },
             events := ctx.events ++ [Event.setStatus n] }

/-- ctx.OnFinish: registers a completion hook (the one registered by Handle
updates the rate counter once when the request completes). -/
def registerFinish (ctx : Ctx) : Ctx :=
  { ctx with events := ctx.events ++ [Event.onFinishRegister],
             finishHooks := ctx.finishHooks + 1 }

/-- Contract of validator.Validator: Validate(ctx) may mutate the context
and returns an error or nil. -/
def ValidatorR : Type := CtxData → CtxData × Option GoErr

/-- Contract of ratelimiter.RateLimiter: Limit(ctx) may mutate the context
and returns an error or nil. -/
def RateLimiterR : Type := CtxData → CtxData × Option GoErr

/-- Contract of circuitbreaker.CircuitBreaker: Protect(ctx, handler) may
invoke the supplied handler (zero or more times, its internal concern),
mutates the context, and returns an error or nil; non-nil means the breaker
rejected the call. -/
def CircuitBreakerR : Type := (CtxData → CtxData) → CtxData → CtxData × Option GoErr

/-- Contract of adaptor.Adaptor: total request and response adaptation. -/
structure AdaptorR : Type where
  adaptRequest : CtxData → CtxData
  adaptResponse : CtxData → CtxData

/-- Contract of mirrorbackend.MirrorBackend: fire-and-forget Handle. -/
def MirrorR : Type := CtxData → CtxData

/-- Contract of the fallback responder (proxyFallback.tryFallback): given
the stage tag and the error (possibly nil), it may inspect and overwrite
the response state arbitrarily. -/
def FallbackR : Type := FallbackPlugin → Option GoErr → CtxData → CtxData

/-- Contract of compression.Compression: Compress is registered as a
response observer on backends. -/
structure CompressionR : Type where
  compress : CtxData → CtxData

/-- The backend.Backend stage: its forwarding behaviour plus the response
observers registered on it via OnResponseGot. -/
structure BackendR : Type where
  impl : CtxData → CtxData
  observers : List (CtxData → CtxData)

/-- The candidatebackend.CandidateBackend stage: the routing filter
predicate, the forwarding behaviour, and its response observers. -/
structure CandidateBackendR : Type where
  filter : CtxData → Bool
  impl : CtxData → CtxData
  observers : List (CtxData → CtxData)

/-- Modelled from the spec: a backend Handle produces its response and the
registered response observers (e.g. compression) run on it afterwards. -/
def BackendR.handleData (b : BackendR) (d : CtxData) : CtxData :=
  b.observers.foldl (fun acc ob => ob acc) (b.impl d)

/-- Modelled from the spec: candidate backend Handle plus its observers. -/
def CandidateBackendR.handleData (b : CandidateBackendR) (d : CtxData) : CtxData :=
  b.observers.foldl (fun acc ob => ob acc) (b.impl d)

/-- HTTPProxy: the orchestrator; it holds at most one instance of each
optional stage plus the mandatory backend (httpproxy.go, type HTTPProxy). -/
structure HTTPProxy : Type where
  fallback : Option FallbackR
  validator : Option ValidatorR
  rateLimiter : Option RateLimiterR
  circuitBreaker : Option CircuitBreakerR
  adaptor : Option AdaptorR
  mirrorBackend : Option MirrorR
  candidateBackend : Option CandidateBackendR
  backend : BackendR
  compression : Option CompressionR

/-- Spec: the configuration record; presence of each optional sub-spec is
the sole switch for instantiating the corresponding stage.  Stage
sub-specs are embedded directly as the behaviour the plugin constructor
would produce from them. -/
structure Spec : Type where
  fallback : Option FallbackR
  validator : Option ValidatorR
  rateLimiter : Option RateLimiterR
  circuitBreaker : Option CircuitBreakerR
  adaptor : Option AdaptorR
  mirrorBackend : Option MirrorR
  candidateBackend : Option (( CtxData → Bool) × (CtxData → CtxData))
  backend : CtxData → CtxData
  compression : Option CompressionR

/-- New (httpproxy.go): builds each configured stage; when compression is
configured it registers Compress via OnResponseGot on the candidate
backend (if present) and on the backend. -/
def New (s : Spec) : HTTPProxy :=
  let cand0 : Option CandidateBackendR :=
    s.candidateBackend.map (fun c => { filter := c.1, impl := c.2, observers := [] })
  let back0 : BackendR := { impl := s.backend, observers := [] }
  match s.compression with
  | some comp =>
      { fallback := s.fallback
        validator := s.validator
        rateLimiter := s.rateLimiter
        circuitBreaker := s.circuitBreaker
        adaptor := s.adaptor
        mirrorBackend := s.mirrorBackend
        candidateBackend :=
          cand0.map (fun c => { c with observers := c.observers ++ [comp.compress] })
        backend := { back0 with observers := back0.observers ++ [comp.compress] }
        compression := some comp }
  | none =>
      { fallback := s.fallback
        validator := s.validator
        rateLimiter := s.rateLimiter
        circuitBreaker := s.circuitBreaker
        adaptor := s.adaptor
        mirrorBackend := s.mirrorBackend
        candidateBackend := cand0
        backend := back0
        compression := none }

/-- tryFallback (httpproxy.go): if a fallback responder is configured,
delegate to it with the stage tag and error; otherwise cancel the request
when the error is non-nil and do nothing when it is nil.  The ghost
fallbackCall event marks that the fallback manager was invoked. -/
def HTTPProxy.tryFallback (hp : HTTPProxy) (ctx : Ctx) (pt : FallbackPlugin)
    (err : Option GoErr) : Ctx :=
  let ctx1 := { ctx with events := ctx.events ++ [Event.fallbackCall pt err] }
  match hp.fallback with
  | some f => { ctx1 with data := f pt err ctx1.data }
  | none =>
      match err with
      | some e => cancel e ctx1
      | none => ctx1

/-- preHandle, adaptor and mirror steps (httpproxy.go lines 160 to 166):
run request adaptation if configured, then the mirror backend if
configured. -/
def HTTPProxy.preHandle3 (hp : HTTPProxy) (c : Ctx) : Ctx :=
  let c1 :=
    match hp.adaptor with
    | some a => { c with data := a.adaptRequest c.data,
                         events := c.events ++ [Event.adaptRequest] }
    | none => c
  match hp.mirrorBackend with
  | some m => { c1 with data := m c1.data, events := c1.events ++ [Event.mirror] }
  | none => c1

/-- preHandle, rate limiter step (httpproxy.go lines 150 to 158): if a
rate limiter is configured and rejects, set status 429, consult the
fallback manager with the rate-limiter tag and the error, and return
(ending the pre-handle phase); otherwise continue with adaptor/mirror. -/
def HTTPProxy.preHandle2 (hp : HTTPProxy) (c : Ctx) : Ctx :=
  match hp.rateLimiter with
  | some rl =>
      let p := rl c.data
      let c1 := { c with data := p.1, events := c.events ++ [Event.limit] }
      match p.2 with
      | some e =>
          hp.tryFallback (setStatus 429 c1) FallbackPlugin.rateLimiter (some e)
      | none => hp.preHandle3 c1
  | none => hp.preHandle3 c

/-- preHandle (httpproxy.go): validator step; on validation failure set
status 400, cancel with the wrapped validation error, and return without
consulting the fallback manager; otherwise continue with the rate limiter
step. -/
def HTTPProxy.preHandle (hp : HTTPProxy) (ctx : Ctx) : Ctx :=
  match hp.validator with
  | some v =>
      let p := v ctx.data
      let c1 := { ctx with data := p.1, events := ctx.events ++ [Event.validate] }
      match p.2 with
      | some e => cancel (GoErr.validateFailed e) (setStatus 400 c1)
      | none => hp.preHandle2 c1
  | none => hp.preHandle2 ctx

/-- Backend selection (httpproxy.go lines 170 to 173): the tag and handler
default to the backend; the candidate backend is selected instead exactly
when it is configured and its filter accepts the request. -/
def HTTPProxy.select (hp : HTTPProxy) (d : CtxData) :
    FallbackPlugin × (CtxData → CtxData) :=
  match hp.candidateBackend with
  | some cb =>
      if cb.filter d then (FallbackPlugin.candidateBackend, cb.handleData)
      else (FallbackPlugin.backend, hp.backend.handleData)
  | none => (FallbackPlugin.backend, hp.backend.handleData)

/-- handle (httpproxy.go): select the backend; with a circuit breaker,
invoke the selected handler through Protect — on error set status 503 and
consult fallback tagged circuit-breaker, else consult fallback with the
selected tag and nil; without a breaker, invoke the handler directly and
consult fallback with the selected tag and nil. -/
def HTTPProxy.handle (hp : HTTPProxy) (ctx : Ctx) : Ctx :=
  let sel := hp.select ctx.data
  match hp.circuitBreaker with
  | some cbk =>
      let p := cbk sel.2 ctx.data
      let ctx1 := { ctx with data := p.1, events := ctx.events ++ [Event.protect] }
      match p.2 with
      | some e =>
          hp.tryFallback (setStatus 503 ctx1) FallbackPlugin.circuitBreaker (some e)
      | none => hp.tryFallback ctx1 sel.1 none
  | none =>
      let ctx1 := { ctx with data := sel.2 ctx.data,
                             events := ctx.events ++ [Event.handlerRun sel.1] }
      hp.tryFallback ctx1 sel.1 none

/-- postHandle (httpproxy.go): response adaptation if configured. -/
def HTTPProxy.postHandle (hp : HTTPProxy) (ctx : Ctx) : Ctx :=
  match hp.adaptor with
  | some a => { ctx with data := a.adaptResponse ctx.data,
                         events := ctx.events ++ [Event.adaptResponse] }
  | none => ctx

/-- The phase pipeline of Handle (httpproxy.go lines 124 to 134): preHandle,
then handle unless cancelled, then postHandle unless cancelled. -/
def HTTPProxy.handleCore (hp : HTTPProxy) (ctx : Ctx) : Ctx :=
  let c1 := hp.preHandle ctx
  if c1.data.cancelled then c1
  else
    let c2 := hp.handle c1
    if c2.data.cancelled then c2
    else hp.postHandle c2

/-- Handle (httpproxy.go): runs the pipeline; the deferred
ctx.OnFinish(rate counter update) registration executes when Handle
returns, on every return path. -/
def HTTPProxy.Handle (hp : HTTPProxy) (ctx : Ctx) : Ctx :=
  registerFinish (hp.handleCore ctx)

/-- The stages released by Close, as tags. -/
inductive CloseTag : Type
  | fallback
  | validator
  | rateLimiter
  | circuitBreaker
  | adaptor
  | mirrorBackend
  | candidateBackend
  | backend
  | compression
deriving DecidableEq, Repr

/-- Helper for Close: the release of one optional stage (present gives one
release, absent gives none). -/
def optTag {α : Type} (o : Option α) (t : CloseTag) : List CloseTag :=
  match o with
  | some _ => [t]
  | none => []

/-- Close (httpproxy.go): releases each configured optional stage in order
fallback, validator, rate limiter, circuit breaker, adaptor, mirror
backend, candidate backend, then unconditionally the backend, then
compression if configured.  The result is the sequence of releases. -/
def HTTPProxy.Close (hp : HTTPProxy) : List CloseTag :=
  optTag hp.fallback CloseTag.fallback
    ++ optTag hp.validator CloseTag.validator
    ++ optTag hp.rateLimiter CloseTag.rateLimiter
    ++ optTag hp.circuitBreaker CloseTag.circuitBreaker
    ++ optTag hp.adaptor CloseTag.adaptor
    ++ optTag hp.mirrorBackend CloseTag.mirrorBackend
    ++ optTag hp.candidateBackend CloseTag.candidateBackend
    ++ [CloseTag.backend]
    ++ optTag hp.compression CloseTag.compression

/-! ## Concrete fixtures used to witness the theorems -/

/-- A concrete per-request data value: fresh request, nothing set. -/
def d0 : CtxData := { status := 0, cancelled := false, cancelErr := none, payload := 0 }

/-- A concrete fresh request context. -/
def ctx0 : Ctx := { data := d0, events := [], finishHooks := 0 }

/-- A concrete backend stage whose forwarding is the identity. -/
def backend0 : BackendR := { impl := fun d => d, observers := [] }

/-- A concrete rate limiter that always rejects with error 7. -/
def rlReject : RateLimiterR := fun d => (d, some (GoErr.base 7))

/-- A concrete validator that always fails with error 3. -/
def vFail : ValidatorR := fun d => (d, some (GoErr.base 3))

/-- A concrete fallback responder that changes nothing. -/
def fbNoop : FallbackR := fun _ _ d => d

/-- A concrete circuit breaker that always rejects with error 5. -/
def cbkReject : CircuitBreakerR := fun _ d => (d, some (GoErr.base 5))

/-- Orchestrator configured with the backend only. -/
def hpB : HTTPProxy :=
  { fallback := none, validator := none, rateLimiter := none, circuitBreaker := none,
    adaptor := none, mirrorBackend := none, candidateBackend := none,
    backend := backend0, compression := none }

/-- Orchestrator with an always-rejecting rate limiter and a no-op
fallback responder. -/
def hpRF : HTTPProxy :=
  { fallback := some fbNoop, validator := none, rateLimiter := some rlReject,
    circuitBreaker := none, adaptor := none, mirrorBackend := none,
    candidateBackend := none, backend := backend0, compression := none }

/-- Orchestrator with an always-rejecting rate limiter and no fallback. -/
def hpR : HTTPProxy :=
  { fallback := none, validator := none, rateLimiter := some rlReject,
    circuitBreaker := none, adaptor := none, mirrorBackend := none,
    candidateBackend := none, backend := backend0, compression := none }

/-- Orchestrator with an always-failing validator. -/
def hpV : HTTPProxy :=
  { fallback := none, validator := some vFail, rateLimiter := none,
    circuitBreaker := none, adaptor := none, mirrorBackend := none,
    candidateBackend := none, backend := backend0, compression := none }

/-- Orchestrator with an always-rejecting circuit breaker. -/
def hpCB : HTTPProxy :=
  { fallback := none, validator := none, rateLimiter := none,
    circuitBreaker := some cbkReject, adaptor := none, mirrorBackend := none,
    candidateBackend := none, backend := backend0, compression := none }

/-- A concrete compression stage (identity compression). -/
def comp0 : CompressionR := { compress := fun d => d }

/-- A concrete candidate-backend configuration: filter always true,
identity forwarding. -/
def candCfg0 : (CtxData → Bool) × (CtxData → CtxData) := (fun _ => true, fun d => d)

/-- A concrete Spec with compression and a candidate backend configured. -/
def specCW : Spec :=
  { fallback := none, validator := none, rateLimiter := none,
    circuitBreaker := none, adaptor := none, mirrorBackend := none,
    candidateBackend := some candCfg0, backend := fun d => d,
    compression := some comp0 }

/-! ## Helper lemmas -/

/-- Cancelling never touches the ghost event trace. -/
theorem cancel_events (e : GoErr) (ctx : Ctx) : (cancel e ctx).events = ctx.events := by
  unfold cancel
  split <;> rfl

/-- Cancelling never touches the registered completion hooks. -/
theorem cancel_finishHooks (e : GoErr) (ctx : Ctx) :
    (cancel e ctx).finishHooks = ctx.finishHooks := by
  unfold cancel
  split <;> rfl

/-- Cancelling a live request sets the flag and the reason. -/
theorem cancel_data_live (e : GoErr) (ctx : Ctx) (h : ctx.data.cancelled = false) :
    (cancel e ctx).data = { ctx.data with cancelled := true, cancelErr := some e } := by
  simp [cancel, h]

/-- The fallback manager appends exactly one fallbackCall event. -/
theorem tryFallback_events (hp : HTTPProxy) (ctx : Ctx) (pt : FallbackPlugin)
    (err : Option GoErr) :
    (hp.tryFallback ctx pt err).events = ctx.events ++ [Event.fallbackCall pt err] := by
  unfold HTTPProxy.tryFallback
  cases hp.fallback with
  | some f => rfl
  | none =>
      cases err with
      | some e => simp [cancel_events]
      | none => rfl

/-- The fallback manager never touches the registered completion hooks. -/
theorem tryFallback_finishHooks (hp : HTTPProxy) (ctx : Ctx) (pt : FallbackPlugin)
    (err : Option GoErr) :
    (hp.tryFallback ctx pt err).finishHooks = ctx.finishHooks := by
  unfold HTTPProxy.tryFallback
  cases hp.fallback with
  | some f => rfl
  | none =>
      cases err with
      | some e => simp [cancel_finishHooks]
      | none => rfl

/-! ## Claim theorems -/

/-- C1: with no circuit breaker configured, the handling phase invokes the
selected handler directly and then consults the fallback manager exactly
once with a nil error and the selected backend tag; the candidate backend
is selected if and only if it is configured and its filter accepts the
request. -/
theorem claim_C1 (hp : HTTPProxy) (ctx : Ctx) (h : hp.circuitBreaker = none) :
    (hp.handle ctx).events =
      ctx.events ++ [Event.handlerRun (hp.select ctx.data).1,
                     Event.fallbackCall (hp.select ctx.data).1 none]
    ∧ (hp.fallback = none → (hp.handle ctx).data = (hp.select ctx.data).2 ctx.data)
    ∧ ((hp.select ctx.data).1 = FallbackPlugin.candidateBackend ↔
        ∃ cb, hp.candidateBackend = some cb ∧ cb.filter ctx.data = true) := by
  refine ⟨?_, ?_, ?_⟩
  · cases hfb : hp.fallback <;>
      simp [HTTPProxy.handle, HTTPProxy.tryFallback, h, hfb]
  · intro hfb
    simp [HTTPProxy.handle, HTTPProxy.tryFallback, h, hfb]
  · cases hcb : hp.candidateBackend with
    | none => simp [HTTPProxy.select, hcb]
    | some cb =>
        by_cases hf : cb.filter ctx.data <;>
          simp [HTTPProxy.select, hcb, hf]

/-- C1 witness: the backend-only orchestrator on a fresh request. -/
theorem claim_C1_witness :
    hpB.circuitBreaker = none
    ∧ (hpB.handle ctx0).events =
        [Event.handlerRun FallbackPlugin.backend,
         Event.fallbackCall FallbackPlugin.backend none]
    ∧ (hpB.handle ctx0).data = d0 :=
  ⟨rfl,
   by simpa [hpB, ctx0, d0, backend0, HTTPProxy.select, BackendR.handleData]
        using (claim_C1 hpB ctx0 rfl).1,
   by simpa [hpB, ctx0, d0, backend0, HTTPProxy.select, BackendR.handleData]
        using (claim_C1 hpB ctx0 rfl).2.1 rfl⟩

/-- C5: when no fallback responder is configured, the fallback manager
cancels the request with exactly the supplied error when it is non-nil
and leaves the request data completely unchanged when it is nil; when a
responder is configured the manager delegates to it with the tag and
error, its result being exactly the responder's output. -/
theorem claim_C5 (hp : HTTPProxy) (ctx : Ctx) (pt : FallbackPlugin)
    (err : Option GoErr) (f : FallbackR) (e : GoErr) :
    (hp.fallback = none → ctx.data.cancelled = false →
      (hp.tryFallback ctx pt (some e)).data =
        { ctx.data with cancelled := true, cancelErr := some e })
    ∧ (hp.fallback = none → (hp.tryFallback ctx pt none).data = ctx.data)
    ∧ (hp.fallback = some f →
        (hp.tryFallback ctx pt err).data = f pt err ctx.data) := by
  refine ⟨?_, ?_, ?_⟩
  · intro hfb hc
    simp [HTTPProxy.tryFallback, cancel, hfb, hc]
  · intro hfb
    simp [HTTPProxy.tryFallback, hfb]
  · intro hfb
    simp [HTTPProxy.tryFallback, hfb]

/-- C5 witness: the backend-only orchestrator (no responder) and the
responder-configured orchestrator, on a fresh request. -/
theorem claim_C5_witness :
    (hpB.fallback = none ∧ ctx0.data.cancelled = false
      ∧ (hpB.tryFallback ctx0 FallbackPlugin.backend (some (GoErr.base 9))).data =
          { d0 with cancelled := true, cancelErr := some (GoErr.base 9) }
      ∧ (hpB.tryFallback ctx0 FallbackPlugin.backend none).data = d0)
    ∧ (hpRF.fallback = some fbNoop
      ∧ (hpRF.tryFallback ctx0 FallbackPlugin.backend none).data =
          fbNoop FallbackPlugin.backend none d0) :=
  ⟨⟨rfl, rfl,
    by simpa [ctx0] using
      (claim_C5 hpB ctx0 FallbackPlugin.backend none fbNoop (GoErr.base 9)).1 rfl rfl,
    by simpa [ctx0] using
      (claim_C5 hpB ctx0 FallbackPlugin.backend none fbNoop (GoErr.base 9)).2.1 rfl⟩,
   ⟨rfl,
    by simpa [ctx0] using
      (claim_C5 hpRF ctx0 FallbackPlugin.backend none fbNoop (GoErr.base 9)).2.2 rfl⟩⟩

/-- C6: once the cancellation flag is set, no later pipeline phase
executes — if the request is cancelled during or after pre-handle, Handle
is exactly the pre-handle result plus the deferred hook registration (the
handle and post-handle phases do not run); if cancelled during or after
the handle phase, post-handle does not run. -/
theorem claim_C6 (hp : HTTPProxy) (ctx : Ctx) :
    ((hp.preHandle ctx).data.cancelled = true →
      hp.Handle ctx = registerFinish (hp.preHandle ctx))
    ∧ ((hp.preHandle ctx).data.cancelled = false →
        (hp.handle (hp.preHandle ctx)).data.cancelled = true →
        hp.Handle ctx = registerFinish (hp.handle (hp.preHandle ctx))) := by
  refine ⟨?_, ?_⟩
  · intro h1
    simp [HTTPProxy.Handle, HTTPProxy.handleCore, h1]
  · intro h1 h2
    simp [HTTPProxy.Handle, HTTPProxy.handleCore, h1, h2]

/-- C6 witness: the validator-failure orchestrator cancels in pre-handle
and Handle is exactly pre-handle plus the hook registration. -/
theorem claim_C6_witness :
    (hpV.preHandle ctx0).data.cancelled = true
    ∧ hpV.Handle ctx0 = registerFinish (hpV.preHandle ctx0) :=
  ⟨rfl, (claim_C6 hpV ctx0).1 rfl⟩

/-- C2: when a configured validator fails, Handle sets status 400, cancels
the request with the (wrapped) validation error, never consults the
fallback manager, and runs no later stage: the whole trace is the
validate call, the 400 status write and the deferred hook registration. -/
theorem claim_C2 (hp : HTTPProxy) (ctx : Ctx) (v : ValidatorR) (d : CtxData)
    (e : GoErr) (h1 : hp.validator = some v) (h2 : v ctx.data = (d, some e))
    (h3 : d.cancelled = false) :
    hp.Handle ctx =
      { data := { d with status := 400, cancelled := true,
                         cancelErr := some (GoErr.validateFailed e) },
        events := ctx.events ++ [Event.validate, Event.setStatus 400,
                                 Event.onFinishRegister],
        finishHooks := ctx.finishHooks + 1 } := by
  simp [HTTPProxy.Handle, HTTPProxy.handleCore, HTTPProxy.preHandle, setStatus,
        cancel, registerFinish, h1, h2, h3]

/-- C2 witness: the failing-validator orchestrator on a fresh request. -/
theorem claim_C2_witness :
    hpV.validator = some vFail
    ∧ vFail ctx0.data = (d0, some (GoErr.base 3))
    ∧ d0.cancelled = false
    ∧ hpV.Handle ctx0 =
        { data := { status := 400, cancelled := true,
                    cancelErr := some (GoErr.validateFailed (GoErr.base 3)),
                    payload := 0 },
          events := [Event.validate, Event.setStatus 400, Event.onFinishRegister],
          finishHooks := 1 } :=
  ⟨rfl, rfl, rfl,
   by simpa [ctx0, d0] using
     claim_C2 hpV ctx0 vFail d0 (GoErr.base 3) rfl rfl rfl⟩

/-- C4: with a circuit breaker configured, a non-nil Protect outcome makes
the handling phase set status 503 and consult the fallback manager with
the circuit-breaker tag and that error; a nil outcome makes it consult
the fallback manager with the selected backend tag and a nil error. -/
theorem claim_C4 (hp : HTTPProxy) (ctx : Ctx) (cbk : CircuitBreakerR)
    (d : CtxData) (e : GoErr) (h1 : hp.circuitBreaker = some cbk) :
    (cbk (hp.select ctx.data).2 ctx.data = (d, some e) →
      (hp.handle ctx).events =
        ctx.events ++ [Event.protect, Event.setStatus 503,
                       Event.fallbackCall FallbackPlugin.circuitBreaker (some e)]
      ∧ (hp.fallback = none → d.cancelled = false →
          (hp.handle ctx).data =
            { d with status := 503, cancelled := true, cancelErr := some e }))
    ∧ (cbk (hp.select ctx.data).2 ctx.data = (d, none) →
      (hp.handle ctx).events =
        ctx.events ++ [Event.protect,
                       Event.fallbackCall (hp.select ctx.data).1 none]
      ∧ (hp.fallback = none → (hp.handle ctx).data = d)) := by
  refine ⟨?_, ?_⟩
  · intro h2
    have hh : hp.handle ctx =
        hp.tryFallback
          (setStatus 503 { ctx with data := d, events := ctx.events ++ [Event.protect] })
          FallbackPlugin.circuitBreaker (some e) := by
      simp [HTTPProxy.handle, h1, h2]
    refine ⟨?_, ?_⟩
    · rw [hh, tryFallback_events]
      simp [setStatus]
    · intro hfb hc
      rw [hh]
      simp [HTTPProxy.tryFallback, hfb, setStatus, cancel, hc]
  · intro h2
    have hh : hp.handle ctx =
        hp.tryFallback { ctx with data := d, events := ctx.events ++ [Event.protect] }
          (hp.select ctx.data).1 none := by
      simp [HTTPProxy.handle, h1, h2]
    refine ⟨?_, ?_⟩
    · rw [hh, tryFallback_events]
      simp
    · intro hfb
      rw [hh]
      simp [HTTPProxy.tryFallback, hfb]

/-- C4 witness: the rejecting-breaker orchestrator on a fresh request. -/
theorem claim_C4_witness :
    hpCB.circuitBreaker = some cbkReject
    ∧ cbkReject (hpCB.select ctx0.data).2 ctx0.data = (d0, some (GoErr.base 5))
    ∧ (hpCB.handle ctx0).events =
        [Event.protect, Event.setStatus 503,
         Event.fallbackCall FallbackPlugin.circuitBreaker (some (GoErr.base 5))]
    ∧ (hpCB.handle ctx0).data =
        { status := 503, cancelled := true, cancelErr := some (GoErr.base 5),
          payload := 0 } :=
  ⟨rfl, rfl,
   by simpa [ctx0, d0] using
     ((claim_C4 hpCB ctx0 cbkReject d0 (GoErr.base 5) rfl).1 rfl).1,
   by simpa [ctx0, d0] using
     ((claim_C4 hpCB ctx0 cbkReject d0 (GoErr.base 5) rfl).1 rfl).2 rfl rfl⟩

/-- C7: when the rate limiter rejects but a configured fallback responder
does not cancel, Handle proceeds from pre-handle into the handling phase:
the backend handler still runs and the fallback manager is consulted a
second time with a nil error — only cancellation stops the pipeline. -/
theorem claim_C7 (hp : HTTPProxy) (ctx : Ctx) (rl : RateLimiterR)
    (f : FallbackR) (d : CtxData) (e : GoErr)
    (hval : hp.validator = none) (hrl : hp.rateLimiter = some rl)
    (hfb : hp.fallback = some f) (hcb : hp.circuitBreaker = none)
    (had : hp.adaptor = none) (hmir : hp.mirrorBackend = none)
    (hcand : hp.candidateBackend = none)
    (h2 : rl ctx.data = (d, some e))
    (h3 : (f FallbackPlugin.rateLimiter (some e)
            { d with status := 429 }).cancelled = false) :
    (hp.Handle ctx).events =
      ctx.events ++
        [Event.limit, Event.setStatus 429,
         Event.fallbackCall FallbackPlugin.rateLimiter (some e),
         Event.handlerRun FallbackPlugin.backend,
         Event.fallbackCall FallbackPlugin.backend none,
         Event.onFinishRegister] := by
  simp [HTTPProxy.Handle, HTTPProxy.handleCore, HTTPProxy.preHandle,
        HTTPProxy.preHandle2, HTTPProxy.handle, HTTPProxy.select,
        HTTPProxy.tryFallback, HTTPProxy.postHandle, setStatus, registerFinish,
        hval, hrl, hfb, hcb, had, hmir, hcand, h2, h3]

/-- C7 witness: always-rejecting rate limiter with a no-op fallback
responder on a fresh request. -/
theorem claim_C7_witness :
    hpRF.rateLimiter = some rlReject
    ∧ hpRF.fallback = some fbNoop
    ∧ rlReject ctx0.data = (d0, some (GoErr.base 7))
    ∧ (fbNoop FallbackPlugin.rateLimiter (some (GoErr.base 7))
        { d0 with status := 429 }).cancelled = false
    ∧ (hpRF.Handle ctx0).events =
        [Event.limit, Event.setStatus 429,
         Event.fallbackCall FallbackPlugin.rateLimiter (some (GoErr.base 7)),
         Event.handlerRun FallbackPlugin.backend,
         Event.fallbackCall FallbackPlugin.backend none,
         Event.onFinishRegister] :=
  ⟨rfl, rfl, rfl, rfl,
   by simpa [ctx0] using
     claim_C7 hpRF ctx0 rlReject fbNoop d0 (GoErr.base 7)
       rfl rfl rfl rfl rfl rfl rfl rfl rfl⟩

/-- C3 as frozen is refuted: with an always-rejecting rate limiter AND a
configured no-op fallback responder, the fallback manager is invoked twice
for the request (once tagged rate-limiter during pre-handle and once
tagged backend during the handling phase), not exactly once. -/
theorem claim_C3_cex :
    hpRF.rateLimiter = some rlReject
    ∧ (rlReject ctx0.data).2 = some (GoErr.base 7)
    ∧ (hpRF.Handle ctx0).events.countP
        (fun ev => match ev with
          | Event.fallbackCall _ _ => true
          | _ => false) = 2 :=
  ⟨rfl, rfl, by decide⟩

/-- C3 amended: when a configured rate limiter rejects, status 429 is set
before the fallback manager is consulted, and the manager is consulted
exactly once during the pre-handle phase with the rate-limiter tag and
the limiter's error; when no fallback responder is configured, the request
is cancelled with that error, this is the only fallback consultation of
the whole request, and the backend handler is never invoked. -/
theorem claim_C3 (hp : HTTPProxy) (c ctx : Ctx) (rl : RateLimiterR)
    (d d2 : CtxData) (e e2 : GoErr)
    (h1 : hp.rateLimiter = some rl) (h2 : rl c.data = (d, some e)) :
    (hp.preHandle2 c).events =
      c.events ++ [Event.limit, Event.setStatus 429,
                   Event.fallbackCall FallbackPlugin.rateLimiter (some e)]
    ∧ (hp.fallback = none → d.cancelled = false →
        (hp.preHandle2 c).data =
          { d with status := 429, cancelled := true, cancelErr := some e })
    ∧ (hp.validator = none → hp.fallback = none → rl ctx.data = (d2, some e2) →
        d2.cancelled = false →
        (hp.Handle ctx).events =
          ctx.events ++ [Event.limit, Event.setStatus 429,
                         Event.fallbackCall FallbackPlugin.rateLimiter (some e2),
                         Event.onFinishRegister]) := by
  have hh : hp.preHandle2 c =
      hp.tryFallback
        (setStatus 429 { c with data := d, events := c.events ++ [Event.limit] })
        FallbackPlugin.rateLimiter (some e) := by
    simp [HTTPProxy.preHandle2, h1, h2]
  refine ⟨?_, ?_, ?_⟩
  · rw [hh, tryFallback_events]
    simp [setStatus]
  · intro hfb hc
    rw [hh]
    simp [HTTPProxy.tryFallback, hfb, setStatus, cancel, hc]
  · intro hv hfb h2b hc2
    simp [HTTPProxy.Handle, HTTPProxy.handleCore, HTTPProxy.preHandle,
          HTTPProxy.preHandle2, HTTPProxy.tryFallback, setStatus, cancel,
          registerFinish, hv, hfb, h1, h2b, hc2]

/-- C3 witness: always-rejecting rate limiter with no fallback responder
on a fresh request — one consultation, 429 first, backend never runs. -/
theorem claim_C3_witness :
    hpR.rateLimiter = some rlReject
    ∧ rlReject ctx0.data = (d0, some (GoErr.base 7))
    ∧ hpR.validator = none ∧ hpR.fallback = none ∧ d0.cancelled = false
    ∧ (hpR.Handle ctx0).events =
        [Event.limit, Event.setStatus 429,
         Event.fallbackCall FallbackPlugin.rateLimiter (some (GoErr.base 7)),
         Event.onFinishRegister]
    ∧ (hpR.preHandle2 ctx0).data =
        { status := 429, cancelled := true, cancelErr := some (GoErr.base 7),
          payload := 0 } :=
  ⟨rfl, rfl, rfl, rfl, rfl,
   by simpa [ctx0] using
     (claim_C3 hpR ctx0 ctx0 rlReject d0 d0 (GoErr.base 7) (GoErr.base 7)
        rfl rfl).2.2 rfl rfl rfl rfl,
   by simpa [ctx0, d0] using
     (claim_C3 hpR ctx0 ctx0 rlReject d0 d0 (GoErr.base 7) (GoErr.base 7)
        rfl rfl).2.1 rfl rfl⟩

/-- An optional stage's release is a sub-sequence of its singleton slot. -/
theorem optTag_sublist {α : Type} (o : Option α) (t : CloseTag) :
    (optTag o t).Sublist [t] := by
  cases o <;> simp [optTag]

/-- An optional stage's release occurs once when configured, never when
absent. -/
theorem optTag_count_self {α : Type} (o : Option α) (t : CloseTag) :
    (optTag o t).count t = if o.isSome then 1 else 0 := by
  cases o <;> simp [optTag]

/-- An optional stage's release never releases a different stage. -/
theorem optTag_count_ne {α : Type} (o : Option α) (t u : CloseTag) (h : t ≠ u) :
    (optTag o t).count u = 0 := by
  cases o <;> simp [optTag, List.count_singleton', h]

/-- C8: Close releases the stages as a sub-sequence of the fixed order
fallback, validator, rate limiter, circuit breaker, adaptor, mirror
backend, candidate backend, backend, compression; each configured optional
stage is released exactly once, each absent one not at all, and the
mandatory backend is always released exactly once. -/
theorem claim_C8 (hp : HTTPProxy) :
    hp.Close.Sublist
      [CloseTag.fallback, CloseTag.validator, CloseTag.rateLimiter,
       CloseTag.circuitBreaker, CloseTag.adaptor, CloseTag.mirrorBackend,
       CloseTag.candidateBackend, CloseTag.backend, CloseTag.compression]
    ∧ hp.Close.count CloseTag.backend = 1
    ∧ hp.Close.count CloseTag.fallback = (if hp.fallback.isSome then 1 else 0)
    ∧ hp.Close.count CloseTag.validator = (if hp.validator.isSome then 1 else 0)
    ∧ hp.Close.count CloseTag.rateLimiter = (if hp.rateLimiter.isSome then 1 else 0)
    ∧ hp.Close.count CloseTag.circuitBreaker =
        (if hp.circuitBreaker.isSome then 1 else 0)
    ∧ hp.Close.count CloseTag.adaptor = (if hp.adaptor.isSome then 1 else 0)
    ∧ hp.Close.count CloseTag.mirrorBackend =
        (if hp.mirrorBackend.isSome then 1 else 0)
    ∧ hp.Close.count CloseTag.candidateBackend =
        (if hp.candidateBackend.isSome then 1 else 0)
    ∧ hp.Close.count CloseTag.compression =
        (if hp.compression.isSome then 1 else 0) := by
  constructor
  · exact ((((((((optTag_sublist hp.fallback _).append
      (optTag_sublist hp.validator _)).append
      (optTag_sublist hp.rateLimiter _)).append
      (optTag_sublist hp.circuitBreaker _)).append
      (optTag_sublist hp.adaptor _)).append
      (optTag_sublist hp.mirrorBackend _)).append
      (optTag_sublist hp.candidateBackend _)).append
      (List.Sublist.refl [CloseTag.backend])).append
      (optTag_sublist hp.compression _)
  · refine ⟨?_, ?_, ?_, ?_, ?_, ?_, ?_, ?_, ?_⟩ <;>
      simp [HTTPProxy.Close, List.count_append, optTag_count_self, optTag_count_ne]

/-- C9: compression wiring at construction — its Compress callback is
registered as response observer on the backend and, when a candidate
backend is configured, on the candidate backend too, exactly when
compression is configured. -/
theorem claim_C9 (s : Spec) (comp : CompressionR)
    (cb : (CtxData → Bool) × (CtxData → CtxData)) :
    (s.compression = some comp →
      (New s).backend.observers = [comp.compress]
      ∧ (New s).backend.impl = s.backend
      ∧ (s.candidateBackend = some cb →
          (New s).candidateBackend =
            some { filter := cb.1, impl := cb.2, observers := [comp.compress] })
      ∧ (s.candidateBackend = none → (New s).candidateBackend = none))
    ∧ (s.compression = none →
      (New s).backend.observers = []
      ∧ (s.candidateBackend = some cb →
          (New s).candidateBackend =
            some { filter := cb.1, impl := cb.2, observers := [] })) := by
  refine ⟨?_, ?_⟩
  · intro h
    refine ⟨?_, ?_, ?_, ?_⟩
    · simp [New, h]
    · simp [New, h]
    · intro hcb
      simp [New, h, hcb]
    · intro hcb
      simp [New, h, hcb]
  · intro h
    refine ⟨?_, ?_⟩
    · simp [New, h]
    · intro hcb
      simp [New, h, hcb]

/-- C9 witness: a concrete spec with compression and a candidate backend. -/
theorem claim_C9_witness :
    specCW.compression = some comp0
    ∧ specCW.candidateBackend = some candCfg0
    ∧ (New specCW).backend.observers = [comp0.compress]
    ∧ (New specCW).candidateBackend =
        some { filter := candCfg0.1, impl := candCfg0.2,
               observers := [comp0.compress] } :=
  ⟨rfl, rfl,
   by simpa using ((claim_C9 specCW comp0 candCfg0).1 rfl).1,
   by simpa using ((claim_C9 specCW comp0 candCfg0).1 rfl).2.2.1 rfl⟩

/-- The adaptor/mirror steps register no completion hook and no
onFinishRegister event. -/
theorem preHandle3_ghost (hp : HTTPProxy) (c : Ctx) :
    (hp.preHandle3 c).events.count Event.onFinishRegister =
      c.events.count Event.onFinishRegister
    ∧ (hp.preHandle3 c).finishHooks = c.finishHooks := by
  unfold HTTPProxy.preHandle3
  cases hp.adaptor <;> cases hp.mirrorBackend <;>
    simp [List.count_append, List.count_singleton']

/-- The rate-limiter step registers no completion hook and no
onFinishRegister event. -/
theorem preHandle2_ghost (hp : HTTPProxy) (c : Ctx) :
    (hp.preHandle2 c).events.count Event.onFinishRegister =
      c.events.count Event.onFinishRegister
    ∧ (hp.preHandle2 c).finishHooks = c.finishHooks := by
  unfold HTTPProxy.preHandle2
  cases hrl : hp.rateLimiter with
  | none => exact preHandle3_ghost hp c
  | some rl =>
      cases hp2 : (rl c.data).2 with
      | some e =>
          simp only [hp2]
          constructor
          · rw [tryFallback_events]
            simp [setStatus, List.count_append, List.count_singleton']
          · rw [tryFallback_finishHooks]
            rfl
      | none =>
          simp only [hp2]
          have h := preHandle3_ghost hp
            { c with data := (rl c.data).1, events := c.events ++ [Event.limit] }
          constructor
          · rw [h.1]
            simp [List.count_append, List.count_singleton']
          · exact h.2

/-- The pre-handle phase registers no completion hook and no
onFinishRegister event. -/
theorem preHandle_ghost (hp : HTTPProxy) (ctx : Ctx) :
    (hp.preHandle ctx).events.count Event.onFinishRegister =
      ctx.events.count Event.onFinishRegister
    ∧ (hp.preHandle ctx).finishHooks = ctx.finishHooks := by
  unfold HTTPProxy.preHandle
  cases hv : hp.validator with
  | none => exact preHandle2_ghost hp ctx
  | some v =>
      cases hp2 : (v ctx.data).2 with
      | some e =>
          simp only [hp2]
          constructor
          · rw [cancel_events]
            simp [setStatus, List.count_append, List.count_singleton']
          · rw [cancel_finishHooks]
            rfl
      | none =>
          simp only [hp2]
          have h := preHandle2_ghost hp
            { ctx with data := (v ctx.data).1,
                       events := ctx.events ++ [Event.validate] }
          constructor
          · rw [h.1]
            simp [List.count_append, List.count_singleton']
          · exact h.2

/-- The handling phase registers no completion hook and no
onFinishRegister event. -/
theorem handle_ghost (hp : HTTPProxy) (ctx : Ctx) :
    (hp.handle ctx).events.count Event.onFinishRegister =
      ctx.events.count Event.onFinishRegister
    ∧ (hp.handle ctx).finishHooks = ctx.finishHooks := by
  unfold HTTPProxy.handle
  cases hcb : hp.circuitBreaker with
  | none =>
      constructor
      · rw [tryFallback_events]
        simp [List.count_append, List.count_singleton']
      · rw [tryFallback_finishHooks]
  | some cbk =>
      cases hp2 : (cbk (hp.select ctx.data).2 ctx.data).2 with
      | some e =>
          simp only [hp2]
          constructor
          · rw [tryFallback_events]
            simp [setStatus, List.count_append, List.count_singleton']
          · rw [tryFallback_finishHooks]
            rfl
      | none =>
          simp only [hp2]
          constructor
          · rw [tryFallback_events]
            simp [List.count_append, List.count_singleton']
          · rw [tryFallback_finishHooks]

/-- The post-handle phase registers no completion hook and no
onFinishRegister event. -/
theorem postHandle_ghost (hp : HTTPProxy) (ctx : Ctx) :
    (hp.postHandle ctx).events.count Event.onFinishRegister =
      ctx.events.count Event.onFinishRegister
    ∧ (hp.postHandle ctx).finishHooks = ctx.finishHooks := by
  unfold HTTPProxy.postHandle
  cases hp.adaptor <;> simp [List.count_append, List.count_singleton']

/-- The whole phase pipeline registers no completion hook and no
onFinishRegister event. -/
theorem handleCore_ghost (hp : HTTPProxy) (ctx : Ctx) :
    (hp.handleCore ctx).events.count Event.onFinishRegister =
      ctx.events.count Event.onFinishRegister
    ∧ (hp.handleCore ctx).finishHooks = ctx.finishHooks := by
  unfold HTTPProxy.handleCore
  by_cases h1 : (hp.preHandle ctx).data.cancelled
  · simpa [h1] using preHandle_ghost hp ctx
  · by_cases h2 : (hp.handle (hp.preHandle ctx)).data.cancelled
    · simp only [h1, h2, if_true, if_false, Bool.false_eq_true]
      refine ⟨?_, ?_⟩
      · rw [(handle_ghost hp (hp.preHandle ctx)).1, (preHandle_ghost hp ctx).1]
      · rw [(handle_ghost hp (hp.preHandle ctx)).2, (preHandle_ghost hp ctx).2]
    · simp only [h1, h2, if_true, if_false, Bool.false_eq_true]
      refine ⟨?_, ?_⟩
      · rw [(postHandle_ghost hp (hp.handle (hp.preHandle ctx))).1,
            (handle_ghost hp (hp.preHandle ctx)).1, (preHandle_ghost hp ctx).1]
      · rw [(postHandle_ghost hp (hp.handle (hp.preHandle ctx))).2,
            (handle_ghost hp (hp.preHandle ctx)).2, (preHandle_ghost hp ctx).2]

/-- C10 as frozen is refuted: on the backend-only configuration the hook
registration is not performed before the phases run — the deferred
ctx.OnFinish call executes when Handle returns, so the registration event
is the last event of the trace, not the first. -/
theorem claim_C10_cex :
    Event.onFinishRegister ∈ (hpB.Handle ctx0).events
    ∧ ¬ ((hpB.Handle ctx0).events.head? = some Event.onFinishRegister) := by
  decide

/-- C10 amended: Handle registers the rate-counter completion hook exactly
once per call, regardless of configuration and outcome, but at Handle's
return (the deferred OnFinish call), as the final event — not before the
phases run; the counter is therefore updated exactly once on request
completion. -/
theorem claim_C10 (hp : HTTPProxy) (ctx : Ctx) :
    (hp.Handle ctx).events.count Event.onFinishRegister =
      ctx.events.count Event.onFinishRegister + 1
    ∧ (hp.Handle ctx).events.getLast? = some Event.onFinishRegister
    ∧ (hp.Handle ctx).finishHooks = ctx.finishHooks + 1 := by
  refine ⟨?_, ?_, ?_⟩
  · simp [HTTPProxy.Handle, registerFinish, List.count_append,
          List.count_singleton', (handleCore_ghost hp ctx).1]
  · simp only [HTTPProxy.Handle, registerFinish]
    rw [List.getLast?_append_cons]
    rfl
  · simp [HTTPProxy.Handle, registerFinish, (handleCore_ghost hp ctx).2]

end HTTPProxyProof
